import Mathlib

/-!
# Verification of the API server transport of `internal/api/api.go`

A shallow embedding, in Lean 4, of the message codec, dispatcher, capability
registry, call client and host-bridge filesystem adapters of the `api` package
(`internal/api/api.go`), plus the diagnostic registration of `internal/ls/api.go`.

Conventions of the embedding:
* A byte stream is a `List Nat` (each element a byte value; Go's `uint8`
  reads/writes are exact on these).  Where Go casts a wider integer to
  `uint16`/`uint32` a `% 2 ^ 16` / `% 2 ^ 32` is written explicitly.
* `bufio` reads that hit the end of the stream are the `ReadErr.eof` error;
  errors wrapping the Go sentinel `ErrInvalidRequest` are
  `ReadErr.invalidRequest` (their formatted text is abbreviated to a fixed
  string, which no claim depends on).
* Fallible Go functions return `Except`; a Go `panic` in the adapter layer is
  an `Except`-error of unit type.
-/

namespace Api

/-! ## Message kinds (`MessageType`, a `uint8`) -/

def MessageTypeUnknown : Nat := 0
def MessageTypeRequest : Nat := 1
def MessageTypeCallResponse : Nat := 2
def MessageTypeCallError : Nat := 3
def MessageTypeResponse : Nat := 4
def MessageTypeError : Nat := 5
def MessageTypeCall : Nat := 6

/-- `MessageType.IsValid`: `m >= MessageTypeRequest && m <= MessageTypeCall`. -/
def MessageTypeIsValid (m : Nat) : Bool :=
  decide (MessageTypeRequest ≤ m) && decide (m ≤ MessageTypeCall)

/-! ## MessagePack tag bytes (`MessagePackType`) -/

def MessagePackTypeFixedArray3 : Nat := 0x93
def MessagePackTypeBin8 : Nat := 0xC4
def MessagePackTypeBin16 : Nat := 0xC5
def MessagePackTypeBin32 : Nat := 0xC6
def MessagePackTypeU8 : Nat := 0xCC

/-- Errors surfaced by the read path: `eof` stands for the io-level errors of
`bufio.Reader.ReadByte` / `io.ReadFull` on a short stream, `invalidRequest`
for errors wrapping `ErrInvalidRequest` (text abbreviated). -/
inductive ReadErr where
  | eof
  | invalidRequest (msg : String)
deriving DecidableEq, Repr

/-- `Server.writeBin`: emit the narrowest bin-family length prefix for
`payload`, then the payload bytes.  The `uint16`/`uint32` casts of Go are the
explicit mods (exact under the branch guards for `uint16`, truncating for
`uint32`). -/
def writeBin (payload : List Nat) : List Nat :=
  let length := payload.length
  if length < 256 then
    MessagePackTypeBin8 :: length :: payload
  else if length < 65536 then
    -- binary.Write big-endian uint16(length)
    MessagePackTypeBin16 :: length / 256 :: length % 256 :: payload
  else
    -- binary.Write big-endian uint32(length)
    let v := length % 2 ^ 32
    MessagePackTypeBin32 :: v / 2 ^ 24 :: v / 2 ^ 16 % 256 :: v / 2 ^ 8 % 256 :: v % 256 :: payload

/-- The `io.ReadFull(s.r, payload)` step of `Server.readBin`: consume exactly
`size` bytes or fail with the short-read error. -/
def readExact (size : Nat) (r : List Nat) : Except ReadErr (List Nat × List Nat) :=
  if r.length < size then .error .eof
  else .ok (r.take size, r.drop size)

/-- `Server.readBin`: read one bin-family tag byte, the big-endian length of
the width that tag declares, then that many payload bytes.  Returns the
payload and the unconsumed remainder of the stream. -/
def readBin (input : List Nat) : Except ReadErr (List Nat × List Nat) :=
  match input with
  | [] => .error .eof
  | t :: rest =>
    if t = MessagePackTypeBin8 then
      match rest with
      | sz :: r => readExact sz r
      | [] => .error .eof
    else if t = MessagePackTypeBin16 then
      match rest with
      | a :: b :: r => readExact (a * 256 + b) r
      | _ => .error .eof
    else if t = MessagePackTypeBin32 then
      match rest with
      | a :: b :: c :: d :: r => readExact (((a * 256 + b) * 256 + c) * 256 + d) r
      | _ => .error .eof
    else
      .error (.invalidRequest "expected binary data length")

/-- `Server.writeMessage`: fixed 3-element array marker, `u8` marker, the kind
byte, then `Method` and `Payload` as bin strings.  (`messageType` is a `uint8`
in Go; callers pass one of the six kind values.) -/
def writeMessage (messageType : Nat) (method payload : List Nat) : List Nat :=
  MessagePackTypeFixedArray3 :: MessagePackTypeU8 :: messageType ::
    (writeBin method ++ writeBin payload)

/-- `Server.readRequest`: parse one envelope off the stream, checking the two
marker bytes, the kind's validity, and — when `expectedMethod` is nonempty
(Go's `expectedMethod != ""`) — that the method matches.  Returns
`(kind, method, payload, rest-of-stream)`. -/
def readRequest (expectedMethod : List Nat) (input : List Nat) :
    Except ReadErr (Nat × List Nat × List Nat × List Nat) :=
  match input with
  | [] => .error .eof
  | t0 :: r0 =>
    if t0 ≠ MessagePackTypeFixedArray3 then
      .error (.invalidRequest "expected message to be encoded as fixed 3-element array")
    else match r0 with
    | [] => .error .eof
    | t1 :: r1 =>
      if t1 ≠ MessagePackTypeU8 then
        .error (.invalidRequest "expected first element of message tuple to be u8")
      else match r1 with
      | [] => .error .eof
      | k :: r2 =>
        if MessageTypeIsValid k = false then
          .error (.invalidRequest "unknown message type")
        else match readBin r2 with
        | .error e => .error e
        | .ok (method, r3) =>
          if expectedMethod ≠ [] ∧ method ≠ expectedMethod then
            .error (.invalidRequest "unexpected method")
          else match readBin r3 with
          | .error e => .error e
          | .ok (payload, r4) => .ok (k, method, payload, r4)

/-! ## Capability registry (`Callback` bits, `enableCallback`, `handleConfigure`) -/

def CallbackDirectoryExists : Nat := 1
def CallbackFileExists : Nat := 2
def CallbackGetAccessibleEntries : Nat := 4
def CallbackReadFile : Nat := 8
def CallbackRealpath : Nat := 16
def CallbackResolveModuleName : Nat := 32
def CallbackResolveTypeReferenceDirective : Nat := 64
def CallbackGetPackageJsonScopeIfApplicable : Nat := 128
def CallbackGetPackageScopeForPath : Nat := 256

/-- The name-to-bit table of the `switch` in `Server.enableCallback`;
`none` is the `default` branch. -/
def callbackBit (callback : String) : Option Nat :=
  match callback with
  | "directoryExists" => some CallbackDirectoryExists
  | "fileExists" => some CallbackFileExists
  | "getAccessibleEntries" => some CallbackGetAccessibleEntries
  | "readFile" => some CallbackReadFile
  | "realpath" => some CallbackRealpath
  | "resolveModuleName" => some CallbackResolveModuleName
  | "resolveTypeReferenceDirective" => some CallbackResolveTypeReferenceDirective
  | "getPackageJsonScopeIfApplicable" => some CallbackGetPackageJsonScopeIfApplicable
  | "getPackageScopeForPath" => some CallbackGetPackageScopeForPath
  | _ => none

/-- `Server.enableCallback`: OR the bit of a recognized name into
`s.enabledCallbacks` (passed and returned explicitly here); an unrecognized
name is an error and changes nothing. -/
def enableCallback (enabledCallbacks : Nat) (callback : String) : Except String Nat :=
  match callbackBit callback with
  | some b => .ok (enabledCallbacks ||| b)
  | none => .error ("unknown callback: " ++ callback)

/-- The callback loop of `Server.handleConfigure`, over the already-decoded
`ConfigureParams.Callbacks` list (the JSON decoding of the payload and the
no-op `LogFile` branch are outside the model).  Because Go's `enableCallback`
mutates `s.enabledCallbacks` in place, an error return leaves the bits of the
names already processed enabled: the result is the final bitmask together
with the error, if any. -/
def handleConfigure (enabledCallbacks : Nat) : List String → Nat × Option String
  | [] => (enabledCallbacks, none)
  | callback :: rest =>
    match enableCallback enabledCallbacks callback with
    | .ok m => handleConfigure m rest
    | .error e => (enabledCallbacks, some e)

/-- `Server.CallbackEnabled`: `s.enabledCallbacks&callback != 0`. -/
def CallbackEnabled (enabledCallbacks : Nat) (callback : Nat) : Bool :=
  decide (enabledCallbacks &&& callback ≠ 0)

/-! ## Call client (`Server.call`) -/

/-- Failures of `Server.call`: errors returned by `readRequest` (io errors and
`ErrInvalidRequest` framing errors, among them the method mismatch), the
`ErrInvalidRequest` error for an envelope kind that is neither CallResponse
nor CallError, and the `ErrClientError` carrying the peer's CallError
payload. -/
inductive CallErr where
  | readErr (e : ReadErr)
  | unexpectedKind (k : Nat)
  | clientError (payload : List Nat)
deriving DecidableEq, Repr

/-- Which `CallErr`s wrap Go's `ErrInvalidRequest` sentinel (protocol errors),
as opposed to the peer-signalled `ErrClientError` and plain io errors. -/
def CallErr.isProtocolError : CallErr → Bool
  | .readErr (.invalidRequest _) => true
  | .unexpectedKind _ => true
  | _ => false

/-- `Server.call`: write a Call envelope for `method` with the serialized
payload (`json.Marshal` is external; the model takes the marshalled bytes),
then read the next envelope with `readRequest(method)` and require its kind
to be CallResponse (success) or CallError (client error).  The first
component is the byte sequence written to the output stream, the second the
returned result. -/
def call (method jsonPayload incoming : List Nat) : List Nat × Except CallErr (List Nat) :=
  (writeMessage MessageTypeCall method jsonPayload,
    match readRequest method incoming with
    | .error e => .error (.readErr e)
    | .ok (messageType, _, responsePayload, _) =>
      if messageType ≠ MessageTypeCallResponse ∧ messageType ≠ MessageTypeCallError then
        .error (.unexpectedKind messageType)
      else if messageType = MessageTypeCallError then
        .error (.clientError responsePayload)
      else
        .ok responsePayload)

/-! ## Dispatcher (`Server.Run`) -/

structure Envelope where
  kind : Nat
  method : List Nat
  payload : List Nat
deriving DecidableEq, Repr

/-- The outcome of `s.handleRequest(method, payload)` for one request: a
result payload, an error, or a panic (raised anywhere during the handling,
nested calls included) carrying the panic value's text. -/
inductive HandlerOutcome where
  | ok (result : List Nat)
  | err (msg : List Nat)
  | panicked (msg : List Nat)
deriving DecidableEq, Repr

/-- How the modelled `Server.Run` returned: the input stream was exhausted
(an io error from `readRequest`), a non-Request kind was read at top level
(`ErrInvalidRequest`), or a recovered handler panic unwound `Run`. -/
inductive RunExit where
  | endOfInput
  | invalidKind (k : Nat)
  | panicRecovered
deriving DecidableEq, Repr

/-- The payload of the Error envelope sent by the recovery closure in
`Server.Run`: `fmt.Errorf("panic handling request: %v\n%s", r, stack)`.
`stack` is `debug.Stack()`, runtime data modelled as a parameter. -/
def panicErrorPayload (panicMsg stack : List Nat) : List Nat :=
  ("panic handling request: ".toUTF8.toList.map (fun b => b.toNat)) ++ panicMsg ++ [10] ++ stack

/-- `Server.Run`, modelled over the stream of envelopes `readRequest` yields
(invalid framing and io failure collapse to the end of the list) and the
handler function `handle` standing for `s.handleRequest`.  Returns the
envelopes written back and how the pump exited.

Go `defer` semantics, reflected in the `panicked` branch: the recovery
closure is deferred inside the `for` loop, which registers it on `Run`'s
defer stack, to run only when `Run` itself exits.  When `handle` panics,
`Run` unwinds; the most recently deferred closure recovers the panic and
sends the Error envelope, the earlier iterations' closures see
`recover() = nil` and do nothing, and `Run` then returns — the loop does not
resume, so later envelopes of the stream are never read. -/
def runLoop (handle : List Nat → List Nat → HandlerOutcome) (stack : List Nat) :
    List Envelope → List Envelope × RunExit
  | [] => ([], .endOfInput)
  | e :: rest =>
    if e.kind ≠ MessageTypeRequest then ([], .invalidKind e.kind)
    else
      match handle e.method e.payload with
      | .ok result =>
        let next := runLoop handle stack rest
        (⟨MessageTypeResponse, e.method, result⟩ :: next.1, next.2)
      | .err msg =>
        let next := runLoop handle stack rest
        (⟨MessageTypeError, e.method, msg⟩ :: next.1, next.2)
      | .panicked msg =>
        ([⟨MessageTypeError, e.method, panicErrorPayload msg stack⟩], .panicRecovered)

/-! ## Host-bridge filesystem adapters -/

structure Entries where
  files : List String
  directories : List String
deriving DecidableEq, Repr

/-- The collaborators of the filesystem adapter methods.  `remoteReply m p`
models the outcome of `s.call(m, p)`: `.ok payload` a CallResponse's payload
(bytes written as a `String`), `.error ()` any failed call (CallError or
framing error), which the adapters turn into a panic.  `parseJsonString` and
`parseJsonEntries` model `json.Unmarshal` of the external JSON library into a
`string` and a `*struct{Files, Directories []string}` respectively —
`.ok none` is the nil pointer that unmarshalling `null` produces.  The
`local*` functions are `s.fs`, the bundled/OS filesystem. -/
structure FsHooks where
  remoteReply : String → String → Except Unit String
  parseJsonString : String → Except Unit String
  parseJsonEntries : String → Except Unit (Option Entries)
  localFileExists : String → Bool
  localReadFile : String → String × Bool
  localGetAccessibleEntries : String → Entries

/-- `Server.FileExists`, instrumented: the result carries two flags recording
whether a remote Call was issued and whether the local filesystem was
consulted; `.error ()` is a panic. -/
def serverFileExists (hooks : FsHooks) (enabledCallbacks : Nat) (path : String) :
    Except Unit (Bool × Bool × Bool) :=
  if enabledCallbacks &&& CallbackFileExists ≠ 0 then
    match hooks.remoteReply "fileExists" path with
    | .error _ => .error ()
    | .ok result =>
      if result.length > 0 then .ok (result = "true", true, false)
      else .ok (hooks.localFileExists path, true, true)
  else .ok (hooks.localFileExists path, false, true)

/-- `Server.ReadFile`, instrumented like `serverFileExists`: result is
`((contents, ok), remoteCalled, localCalled)`. -/
def serverReadFile (hooks : FsHooks) (enabledCallbacks : Nat) (path : String) :
    Except Unit ((String × Bool) × Bool × Bool) :=
  if enabledCallbacks &&& CallbackReadFile ≠ 0 ∧ "bundled://".isPrefixOf path = false then
    match hooks.remoteReply "readFile" path with
    | .error _ => .error ()
    | .ok data =>
      if data = "null" then .ok (("", false), true, false)
      else if data.length > 0 then
        match hooks.parseJsonString data with
        | .error _ => .error ()
        | .ok result => .ok ((result, true), true, false)
      else .ok (hooks.localReadFile path, true, true)
  else .ok (hooks.localReadFile path, false, true)

/-- `Server.GetAccessibleEntries`, instrumented like `serverFileExists`.
Note the nil-pointer (`.ok none`) branch: the code checks `rawEntries != nil`
and, when nil, falls through to the local filesystem. -/
def serverGetAccessibleEntries (hooks : FsHooks) (enabledCallbacks : Nat) (path : String) :
    Except Unit (Entries × Bool × Bool) :=
  if enabledCallbacks &&& CallbackGetAccessibleEntries ≠ 0 then
    match hooks.remoteReply "getAccessibleEntries" path with
    | .error _ => .error ()
    | .ok result =>
      if result.length > 0 then
        match hooks.parseJsonEntries result with
        | .error _ => .error ()
        | .ok (some rawEntries) => .ok (rawEntries, true, false)
        | .ok none => .ok (hooks.localGetAccessibleEntries path, true, true)
      else .ok (hooks.localGetAccessibleEntries path, true, true)
  else .ok (hooks.localGetAccessibleEntries path, false, true)

/-! ## Diagnostic registration (`internal/ls/api.go`) -/

/-- One `*ast.Diagnostic` as seen through the getters `addDiagnostic` uses.
Nested diagnostics (`MessageChain()`, `RelatedInformation()`) are pointers,
modelled as addresses (`Nat`) resolved through a heap. -/
structure AstDiagnostic where
  fileName : String
  pos : Int
  endLoc : Int
  code : Int
  categoryName : String
  message : String
  messageChain : List Nat
  relatedInformation : List Nat
deriving DecidableEq, Repr

/-- The `ls.Diagnostic` record built by `addDiagnostic` (field names as in the
source; `End` renamed `EndLoc`).  `Pos`/`End` are `int32` in Go; the claims do
not exercise the cast, so they are plain `Int` here. -/
structure Diagnostic where
  Id : Nat
  FileName : String
  Pos : Int
  EndLoc : Int
  Code : Int
  Category : String
  Message : String
  MessageChain : List Nat
  RelatedInformation : List Nat
  ReportsUnnecessary : Bool
  ReportsDeprecated : Bool
  SkippedOnNoEmit : Bool
deriving DecidableEq, Repr

/-- `ls.diagnosticMaps`.  Go maps are association lists here; inserts cons at
the front so `List.lookup` sees the newest binding, matching map overwrite
semantics.  `diagnosticReverseMap` is keyed by the `*ast.Diagnostic` pointer,
i.e. by address. -/
structure DiagnosticMaps where
  diagnosticMapById : List (Nat × Diagnostic)
  diagnosticReverseMap : List (Nat × Nat)
deriving DecidableEq, Repr

mutual

/-- `diagnosticMaps.addDiagnostic`, with an explicit heap resolving pointer
addresses and a fuel argument bounding the recursion depth (Go's recursion
terminates because the reverse-map entry is written before recursing; the
fuel is the standard way to make that executable — `none` means fuel ran out
or a dangling address, neither of which a claim exercises).  Returns the
updated maps and the assigned id. -/
def addDiagnostic (heap : Nat → Option AstDiagnostic) :
    Nat → DiagnosticMaps → Nat → Option (DiagnosticMaps × Nat)
  | 0, _, _ => none
  | fuel + 1, d, diagnostic =>
    match d.diagnosticReverseMap.lookup diagnostic with
    | some i => some (d, i)
    | none =>
      match heap diagnostic with
      | none => none
      | some diag =>
        let id := d.diagnosticMapById.length + 1
        let d1 : DiagnosticMaps :=
          { d with diagnosticReverseMap := (diagnostic, id) :: d.diagnosticReverseMap }
        match addDiagnosticList heap fuel d1 diag.messageChain with
        | none => none
        | some (d2, chainIds) =>
          match addDiagnosticList heap fuel d2 diag.relatedInformation with
          | none => none
          | some (d3, relatedIds) =>
            let entry : Diagnostic :=
              { Id := id, FileName := diag.fileName, Pos := diag.pos, EndLoc := diag.endLoc,
                Code := diag.code, Category := diag.categoryName, Message := diag.message,
                MessageChain := chainIds, RelatedInformation := relatedIds,
                ReportsUnnecessary := false, ReportsDeprecated := false,
                SkippedOnNoEmit := false }
            some ({ d3 with diagnosticMapById := (id, entry) :: d3.diagnosticMapById }, id)
termination_by fuel _ _ => (fuel, 0)

/-- The two `for … append(…, d.addDiagnostic(…))` loops of `addDiagnostic`,
over a list of nested diagnostic addresses. -/
def addDiagnosticList (heap : Nat → Option AstDiagnostic) :
    Nat → DiagnosticMaps → List Nat → Option (DiagnosticMaps × List Nat)
  | _, d, [] => some (d, [])
  | fuel, d, a :: as =>
    match addDiagnostic heap fuel d a with
    | none => none
    | some (d1, i) =>
      match addDiagnosticList heap fuel d1 as with
      | none => none
      | some (d2, is) => some (d2, i :: is)
termination_by fuel _ l => (fuel, l.length + 1)

end

/-! ## Round-trip helpers -/

theorem readExact_append (p rest : List Nat) :
    readExact p.length (p ++ rest) = .ok (p, rest) := by
  unfold readExact
  rw [if_neg, List.take_left, List.drop_left]
  simp

theorem readBin_writeBin (p rest : List Nat) (h : p.length < 2 ^ 32) :
    readBin (writeBin p ++ rest) = .ok (p, rest) := by
  unfold writeBin
  by_cases h1 : p.length < 256
  · simp only [if_pos h1, List.cons_append]
    unfold readBin
    simp [readExact_append]
  · by_cases h2 : p.length < 65536
    · simp only [if_neg h1, if_pos h2, List.cons_append]
      unfold readBin
      have hsz : p.length / 256 * 256 + p.length % 256 = p.length := by omega
      simp [MessagePackTypeBin8, MessagePackTypeBin16, hsz, readExact_append]
    · simp only [if_neg h1, if_neg h2, List.cons_append]
      unfold readBin
      have hsz : ((p.length % 4294967296 / 16777216 * 256 + p.length % 4294967296 / 65536 % 256)
          * 256 + p.length % 4294967296 / 256 % 256) * 256 + p.length % 4294967296 % 256
          = p.length := by omega
      simp [MessagePackTypeBin8, MessagePackTypeBin16, MessagePackTypeBin32, hsz, readExact_append]

theorem readRequest_writeMessage (expected : List Nat) (k : Nat) (method payload rest : List Nat)
    (hk : MessageTypeIsValid k = true)
    (hm : method.length < 2 ^ 32) (hp : payload.length < 2 ^ 32) :
    readRequest expected (writeMessage k method payload ++ rest) =
      if expected ≠ [] ∧ method ≠ expected then .error (.invalidRequest "unexpected method")
      else .ok (k, method, payload, rest) := by
  unfold writeMessage
  simp only [List.cons_append, List.append_assoc]
  unfold readRequest
  simp [hk, readBin_writeBin method (writeBin payload ++ rest) hm,
    readBin_writeBin payload rest hp]

/-! ## Claims -/

/-- C3: for every envelope with a valid message kind (one of the six values
1..6) and Method and Payload byte sequences each of length at most the
maximum representable by the 4-byte width (`< 2 ^ 32`), decoding the bytes
produced by encoding the envelope (`writeMessage` then `readRequest` over the
same stream) yields the envelope back — same kind, same Method bytes, same
Payload bytes — leaving any following bytes unconsumed.  The quantification
covers the boundary lengths 255/256 and 65535/65536 where the length-prefix
width changes. -/
theorem c3_decode_encode_roundtrip (k : Nat) (method payload rest : List Nat)
    (hk : MessageTypeIsValid k = true)
    (hm : method.length < 2 ^ 32) (hp : payload.length < 2 ^ 32) :
    readRequest [] (writeMessage k method payload ++ rest) = .ok (k, method, payload, rest) := by
  rw [readRequest_writeMessage [] k method payload rest hk hm hp]
  simp

/-- Witness for C3 at a Bin8/Bin16 boundary: a 256-byte method. -/
theorem c3_decode_encode_roundtrip_witness :
    readRequest [] (writeMessage MessageTypeRequest (List.replicate 256 7) [1, 2, 3] ++ []) =
      .ok (MessageTypeRequest, List.replicate 256 7, [1, 2, 3], []) :=
  c3_decode_encode_roundtrip MessageTypeRequest (List.replicate 256 7) [1, 2, 3] []
    (by decide) (by rw [List.length_replicate]; decide) (by decide)

/-- C4 counterexample: the byte sequence framing an empty Method with the
wider-than-necessary Bin16 length prefix decodes successfully (to a Request
envelope with empty Method and Payload), but `writeMessage` re-encodes that
envelope with the canonical Bin8 prefix, so re-encoding does not reproduce
the original bytes. -/
theorem c4_counterexample :
    readRequest [] [0x93, 0xCC, 1, 0xC5, 0, 0, 0xC4, 0] = .ok (1, [], [], []) ∧
      writeMessage 1 [] [] ≠ [0x93, 0xCC, 1, 0xC5, 0, 0, 0xC4, 0] :=
  ⟨rfl, by decide⟩

/-- C4 (amended): re-encoding the decoded envelope reproduces the original
byte sequence exactly for every *canonically* encoded byte sequence, i.e.
whenever the bytes are the output of `writeMessage` (followed by any
remainder); `readRequest` also accepts non-minimal length-prefix widths,
which `writeMessage` re-encodes differently. -/
theorem c4_encode_decode_canonical (k : Nat) (method payload rest : List Nat)
    (hk : MessageTypeIsValid k = true)
    (hm : method.length < 2 ^ 32) (hp : payload.length < 2 ^ 32)
    (k2 : Nat) (m2 p2 rest2 : List Nat)
    (hdec : readRequest [] (writeMessage k method payload ++ rest) = .ok (k2, m2, p2, rest2)) :
    writeMessage k2 m2 p2 ++ rest2 = writeMessage k method payload ++ rest := by
  rw [readRequest_writeMessage [] k method payload rest hk hm hp] at hdec
  simp only [ne_eq, not_true_eq_false, false_and, if_false, ite_false, Except.ok.injEq,
    Prod.mk.injEq] at hdec
  obtain ⟨h1, h2, h3, h4⟩ := hdec
  rw [← h1, ← h2, ← h3, ← h4]

/-- Witness for C4 (amended) on a concrete canonical envelope. -/
theorem c4_encode_decode_canonical_witness :
    writeMessage 1 [101] [9] ++ [] = writeMessage 1 [101] [9] ++ [] :=
  c4_encode_decode_canonical 1 [101] [9] [] (by decide) (by decide) (by decide)
    1 [101] [9] [] rfl

/-- C9: for every nonempty method name `m` and marshalled payload,
`Server.call` applied to a stream whose next envelope has kind `k`, method
`mm` and payload `p`: it returns the response payload `p` exactly in the case
`mm = m` and `k` = CallResponse; it returns the client-error carrying the
peer's text when `mm = m` and `k` = CallError; and in every other case —
`mm ≠ m`, or a kind other than CallResponse/CallError — it returns a
protocol (`ErrInvalidRequest`) error and no payload. -/
theorem c9_call_reply_pairing (m jsonPayload : List Nat) (hm0 : m ≠ [])
    (k : Nat) (mm p rest : List Nat) (hk : MessageTypeIsValid k = true)
    (hmm : mm.length < 2 ^ 32) (hp : p.length < 2 ^ 32) :
    ((mm = m ∧ k = MessageTypeCallResponse) →
        (call m jsonPayload (writeMessage k mm p ++ rest)).2 = .ok p)
    ∧ ((mm = m ∧ k = MessageTypeCallError) →
        (call m jsonPayload (writeMessage k mm p ++ rest)).2 = .error (.clientError p))
    ∧ ((mm ≠ m ∨ (k ≠ MessageTypeCallResponse ∧ k ≠ MessageTypeCallError)) →
        ∃ e, (call m jsonPayload (writeMessage k mm p ++ rest)).2 = .error e
          ∧ e.isProtocolError = true) := by
  unfold call
  rw [readRequest_writeMessage m k mm p rest hk hmm hp]
  by_cases hmeq : mm = m
  · subst hmeq
    rw [if_neg (by simp : ¬(mm ≠ ([] : List Nat) ∧ mm ≠ mm))]
    refine ⟨?_, ?_, ?_⟩
    · rintro ⟨-, rfl⟩
      simp [MessageTypeCallResponse, MessageTypeCallError]
    · rintro ⟨-, rfl⟩
      simp [MessageTypeCallResponse, MessageTypeCallError]
    · rintro (hne | ⟨hk1, hk2⟩)
      · exact absurd rfl hne
      · refine ⟨.unexpectedKind k, ?_, rfl⟩
        simp [hk1, hk2]
  · rw [if_pos ⟨hm0, hmeq⟩]
    refine ⟨?_, ?_, ?_⟩
    · rintro ⟨rfl, -⟩
      exact absurd rfl hmeq
    · rintro ⟨rfl, -⟩
      exact absurd rfl hmeq
    · intro _
      exact ⟨.readErr (.invalidRequest "unexpected method"), rfl, rfl⟩

/-- Witness for C9: a CallResponse with matching method completes the call. -/
theorem c9_call_reply_pairing_witness :
    (call [109] [] (writeMessage MessageTypeCallResponse [109] [42] ++ [])).2 = .ok [42] :=
  (c9_call_reply_pairing [109] [] (by decide) MessageTypeCallResponse [109] [42] []
    (by decide) (by decide) (by decide)).1 ⟨rfl, rfl⟩

/-- Monotonicity of `CallbackEnabled` under OR-ing a bit into the mask. -/
theorem CallbackEnabled_or (mask b c : Nat) (h : CallbackEnabled mask c = true) :
    CallbackEnabled (mask ||| b) c = true := by
  simp only [CallbackEnabled, decide_eq_true_eq] at h ⊢
  intro hz
  apply h
  apply Nat.eq_of_testBit_eq
  intro i
  have hi := congrArg (fun n => n.testBit i) hz
  simp only [Nat.testBit_and, Nat.testBit_or, Nat.zero_testBit] at hi ⊢
  cases hmb : mask.testBit i <;> cases hcb : c.testBit i <;> simp_all

/-- C2 counterexample: configuring `["fileExists", "bogus"]` from the empty
bitmask returns a configuration error, yet the `fileExists` bit — a
recognized name listed before the unknown one — has become enabled, refuting
the claim that no bit named in such a request becomes enabled. -/
theorem c2_counterexample :
    (handleConfigure 0 ["fileExists", "bogus"]).2.isSome = true
    ∧ CallbackEnabled (handleConfigure 0 ["fileExists", "bogus"]).1 CallbackFileExists = true := by
  decide

/-- C2 (amended): a configuration request containing an unrecognized name
returns a configuration error, and the bitmask ends exactly as `handleConfigure`
of the recognized prefix leaves it: the bits of recognized names listed
*before* the first unrecognized name are enabled, while the unknown name and
everything after it enable nothing. -/
theorem c2_unknown_callback_partial (mask : Nat) (good : List String) (bad : String)
    (rest : List String)
    (hgood : ∀ c ∈ good, (callbackBit c).isSome)
    (hbad : callbackBit bad = none) :
    (handleConfigure mask (good ++ bad :: rest)).2 = some ("unknown callback: " ++ bad)
    ∧ (handleConfigure mask (good ++ bad :: rest)).1 = (handleConfigure mask good).1 := by
  induction good generalizing mask with
  | nil => simp [handleConfigure, enableCallback, hbad]
  | cons c cs ih =>
    have hc := hgood c (List.mem_cons_self c cs)
    obtain ⟨b, hb⟩ := Option.isSome_iff_exists.mp hc
    simp only [List.cons_append, handleConfigure, enableCallback, hb]
    exact ih (mask ||| b) (fun x hx => hgood x (List.mem_cons_of_mem c hx))

/-- Witness for C2 (amended): one recognized name before the unknown one. -/
theorem c2_unknown_callback_partial_witness :
    (handleConfigure 0 (["fileExists"] ++ "bogus" :: [])).2
        = some ("unknown callback: " ++ "bogus")
    ∧ (handleConfigure 0 (["fileExists"] ++ "bogus" :: [])).1
        = (handleConfigure 0 ["fileExists"]).1 :=
  c2_unknown_callback_partial 0 ["fileExists"] "bogus" [] (by decide) (by decide)

/-- C8: the enabled-callback bitmask is monotonic over the connection's
lifetime — `handleConfigure`, the only operation that writes it, only ORs
bits in, so once `CallbackEnabled` holds for a capability it still holds
after any further configuration request — and enabling the same capability
twice is idempotent. -/
theorem c8_monotonic_bitmask :
    (∀ mask names c, CallbackEnabled mask c = true →
        CallbackEnabled (handleConfigure mask names).1 c = true)
    ∧ (∀ mask cb, (handleConfigure (handleConfigure mask [cb]).1 [cb]).1
        = (handleConfigure mask [cb]).1) := by
  constructor
  · intro mask names
    induction names generalizing mask with
    | nil => intro c h; simpa [handleConfigure] using h
    | cons n ns ih =>
      intro c h
      cases hb : callbackBit n with
      | none => simpa [handleConfigure, enableCallback, hb] using h
      | some b =>
        have hstep := ih (mask ||| b) c (CallbackEnabled_or mask b c h)
        simpa [handleConfigure, enableCallback, hb] using hstep
  · intro mask cb
    cases hb : callbackBit cb with
    | none => simp [handleConfigure, enableCallback, hb]
    | some b => simp [handleConfigure, enableCallback, hb, Nat.or_assoc, Nat.or_self]

/-- Witness for C8: `fileExists` stays enabled across a later configuration. -/
theorem c8_monotonic_bitmask_witness :
    CallbackEnabled (handleConfigure CallbackFileExists ["readFile"]).1 CallbackFileExists
      = true :=
  c8_monotonic_bitmask.1 CallbackFileExists ["readFile"] CallbackFileExists (by decide)

/-- A nonempty string has positive length. -/
theorem string_ne_empty_length_pos (s : String) (h : s ≠ "") : 0 < s.length := by
  rcases s with ⟨data⟩
  cases data with
  | nil => exact absurd rfl h
  | cons a as => simp [String.length]

/-- C6: `Server.FileExists` — with the capability disabled no Call is issued
and the local filesystem answers; enabled with remote reply `"true"` it
returns `true` without consulting the local filesystem; enabled with an empty
reply it returns the local answer; enabled with a non-empty reply other than
`"true"` it returns `false` without consulting the local filesystem (the
explicit negative is honored, not overridden by local lookup).  The two
booleans of the result record (remote Call issued, local filesystem
consulted). -/
theorem c6_fileExists_fallback (hooks : FsHooks) (mask : Nat) (path : String) :
    (mask &&& CallbackFileExists = 0 →
        serverFileExists hooks mask path = .ok (hooks.localFileExists path, false, true))
    ∧ (mask &&& CallbackFileExists ≠ 0 →
        hooks.remoteReply "fileExists" path = .ok "true" →
        serverFileExists hooks mask path = .ok (true, true, false))
    ∧ (mask &&& CallbackFileExists ≠ 0 →
        hooks.remoteReply "fileExists" path = .ok "" →
        serverFileExists hooks mask path = .ok (hooks.localFileExists path, true, true))
    ∧ (∀ r, mask &&& CallbackFileExists ≠ 0 →
        hooks.remoteReply "fileExists" path = .ok r → r ≠ "" → r ≠ "true" →
        serverFileExists hooks mask path = .ok (false, true, false)) := by
  refine ⟨?_, ?_, ?_, ?_⟩
  · intro h0
    simp [serverFileExists, h0]
  · intro hen hr
    simp [serverFileExists, hen, hr]
    decide
  · intro hen hr
    simp [serverFileExists, hen, hr]
  · intro r hen hr hne htrue
    have hlen := string_ne_empty_length_pos r hne
    simp [serverFileExists, hen, hr, hlen, htrue]

/-- Witness for C6: disabled capability answers locally, with no Call. -/
theorem c6_fileExists_fallback_witness :
    serverFileExists
        { remoteReply := fun _ _ => .error (), parseJsonString := fun _ => .error (),
          parseJsonEntries := fun _ => .error (), localFileExists := fun _ => true,
          localReadFile := fun _ => ("", false), localGetAccessibleEntries := fun _ => ⟨[], []⟩ }
        0 "/a.ts" = .ok (true, false, true) :=
  (c6_fileExists_fallback
    { remoteReply := fun _ _ => .error (), parseJsonString := fun _ => .error (),
      parseJsonEntries := fun _ => .error (), localFileExists := fun _ => true,
      localReadFile := fun _ => ("", false), localGetAccessibleEntries := fun _ => ⟨[], []⟩ }
    0 "/a.ts").1 rfl

/-- C5: `Server.ReadFile` — with the capability disabled the local filesystem
answers; a path under the reserved `bundled://` scheme issues no remote Call
and the local filesystem answers; with the capability enabled (non-bundled
path) a remote reply of the explicit null marker `"null"` returns not-found
`("", false)` without consulting the local filesystem; and an empty remote
reply falls back to the local filesystem's answer. -/
theorem c5_readFile_cases (hooks : FsHooks) (mask : Nat) (path : String) :
    (mask &&& CallbackReadFile = 0 →
        serverReadFile hooks mask path = .ok (hooks.localReadFile path, false, true))
    ∧ ("bundled://".isPrefixOf path = true →
        serverReadFile hooks mask path = .ok (hooks.localReadFile path, false, true))
    ∧ (mask &&& CallbackReadFile ≠ 0 → "bundled://".isPrefixOf path = false →
        hooks.remoteReply "readFile" path = .ok "null" →
        serverReadFile hooks mask path = .ok (("", false), true, false))
    ∧ (mask &&& CallbackReadFile ≠ 0 → "bundled://".isPrefixOf path = false →
        hooks.remoteReply "readFile" path = .ok "" →
        serverReadFile hooks mask path = .ok (hooks.localReadFile path, true, true)) := by
  refine ⟨?_, ?_, ?_, ?_⟩
  · intro h0
    simp [serverReadFile, h0]
  · intro hb
    simp [serverReadFile, hb]
  · intro hen hb hr
    simp [serverReadFile, hen, hb, hr]
  · intro hen hb hr
    simp [serverReadFile, hen, hb, hr]

/-- Witness for C5: the explicit null marker short-circuits to not-found. -/
theorem c5_readFile_cases_witness :
    serverReadFile
        { remoteReply := fun _ _ => .ok "null", parseJsonString := fun _ => .error (),
          parseJsonEntries := fun _ => .error (), localFileExists := fun _ => true,
          localReadFile := fun _ => ("local", true), localGetAccessibleEntries := fun _ => ⟨[], []⟩ }
        CallbackReadFile "/a.ts" = .ok (("", false), true, false) :=
  (c5_readFile_cases
    { remoteReply := fun _ _ => .ok "null", parseJsonString := fun _ => .error (),
      parseJsonEntries := fun _ => .error (), localFileExists := fun _ => true,
      localReadFile := fun _ => ("local", true), localGetAccessibleEntries := fun _ => ⟨[], []⟩ }
    CallbackReadFile "/a.ts").2.2.1 (by decide) (by decide) rfl

/-- Concrete collaborators for C7: the remote answers every
getAccessibleEntries Call with the explicit null marker, the JSON decoder
maps `null` to the nil pointer (`none`), and the local filesystem has a
distinctive listing. -/
def c7Hooks : FsHooks where
  remoteReply := fun _ _ => .ok "null"
  parseJsonString := fun _ => .error ()
  parseJsonEntries := fun s => if s = "null" then .ok none else .error ()
  localFileExists := fun _ => false
  localReadFile := fun _ => ("", false)
  localGetAccessibleEntries := fun _ => ⟨["local.ts"], ["sub"]⟩

/-- C7 counterexample: with the getAccessibleEntries capability enabled and
the remote answering the non-empty explicit null marker `"null"`,
`Server.GetAccessibleEntries` DOES query the local filesystem and returns its
answer (final flag `true` = local consulted): the nil pointer produced by
unmarshalling `null` falls through to the local fallback, refuting the claim
that the explicit no-data answer is terminal. -/
theorem c7_counterexample :
    c7Hooks.remoteReply "getAccessibleEntries" "/dir" = .ok "null"
    ∧ serverGetAccessibleEntries c7Hooks CallbackGetAccessibleEntries "/dir"
        = .ok (c7Hooks.localGetAccessibleEntries "/dir", true, true) :=
  ⟨rfl, rfl⟩

/-- C7 (amended): when the getAccessibleEntries capability is enabled and the
remote answers the explicit null marker (which JSON-decodes to a nil
pointer), `Server.GetAccessibleEntries` falls back to the local filesystem
exactly as for an empty reply; only a non-null, entries-shaped payload is
terminal.  (The null short-circuit of the spec exists only in `ReadFile`.) -/
theorem c7_null_falls_back (hooks : FsHooks) (mask : Nat) (path : String)
    (hen : mask &&& CallbackGetAccessibleEntries ≠ 0)
    (hr : hooks.remoteReply "getAccessibleEntries" path = .ok "null")
    (hparse : hooks.parseJsonEntries "null" = .ok none) :
    serverGetAccessibleEntries hooks mask path
      = .ok (hooks.localGetAccessibleEntries path, true, true) := by
  simp [serverGetAccessibleEntries, hen, hr, hparse]

/-- Witness for C7 (amended). -/
theorem c7_null_falls_back_witness :
    serverGetAccessibleEntries c7Hooks CallbackGetAccessibleEntries "/dir"
      = .ok (c7Hooks.localGetAccessibleEntries "/dir", true, true) :=
  c7_null_falls_back c7Hooks CallbackGetAccessibleEntries "/dir" (by decide) rfl rfl

/-- The handler for the C1 evaluation: request method `[88]` ("X") panics,
every other request succeeds. -/
def c1Handler : List Nat → List Nat → HandlerOutcome :=
  fun method _ => if method = [88] then .panicked [98] else .ok [111]

/-- C1 evaluation at the failing input: a connection stream holding a
panicking request "X" (`[88]`) followed by a well-formed request "Y"
(`[89]`).  The recovery does write the Error envelope for "X", but `Run`
then returns (`panicRecovered`): "Y" is never dispatched and no envelope for
it is written — contradicting the claim that the pump continues.  The second
conjunct shows "Y" alone is served normally, so the missing answer is caused
solely by the preceding panic.  (Root cause: the `defer` that installs the
recovery closure sits inside the `for` loop, so it runs when `Run` unwinds,
not per iteration; after recovering, `Run` returns instead of looping.) -/
theorem c1_panic_stops_pump :
    runLoop c1Handler [115] [⟨MessageTypeRequest, [88], []⟩, ⟨MessageTypeRequest, [89], []⟩]
        = ([⟨MessageTypeError, [88], panicErrorPayload [98] [115]⟩], .panicRecovered)
    ∧ runLoop c1Handler [115] [⟨MessageTypeRequest, [89], []⟩]
        = ([⟨MessageTypeResponse, [89], [111]⟩], .endOfInput) :=
  ⟨rfl, rfl⟩

/-- C10: `addDiagnostic` is idempotent on already-registered diagnostics: if
the diagnostic's address is already bound in the reverse map, the call
returns the id assigned when it was first added and leaves both
`diagnosticMapById` and `diagnosticReverseMap` unchanged (for every positive
fuel; the function returns before any recursion). -/
theorem c10_addDiagnostic_idempotent (heap : Nat → Option AstDiagnostic)
    (d : DiagnosticMaps) (diagnostic i : Nat) (fuel : Nat)
    (h : d.diagnosticReverseMap.lookup diagnostic = some i) :
    addDiagnostic heap (fuel + 1) d diagnostic = some (d, i) := by
  rw [addDiagnostic, h]

/-- An example `ls.Diagnostic` record for the C10 witness. -/
def c10Diag : Diagnostic where
  Id := 1
  FileName := "a.ts"
  Pos := 0
  EndLoc := 1
  Code := 100
  Category := "error"
  Message := "m"
  MessageChain := []
  RelatedInformation := []
  ReportsUnnecessary := false
  ReportsDeprecated := false
  SkippedOnNoEmit := false

/-- Witness for C10 on a one-entry state. -/
theorem c10_addDiagnostic_idempotent_witness :
    addDiagnostic (fun _ => none) (0 + 1) ⟨[(1, c10Diag)], [(5, 1)]⟩ 5
      = some (⟨[(1, c10Diag)], [(5, 1)]⟩, 1) :=
  c10_addDiagnostic_idempotent (fun _ => none) ⟨[(1, c10Diag)], [(5, 1)]⟩ 5 1 0 rfl

end Api
